import Mathlib

/-!
Verification of the authentication and permission subsystem of the
bangumi private API server.  The embedding follows src/lib/auth/index.ts
together with the permission and user lookup helpers of
src/lib/orm/index.ts.  Database tables, the module level caches and the
clock become explicit environment and state records; asynchronous
functions that can throw become functions into Except.
-/

/-- Permission record (interface Permission of src/lib/orm/index.ts):
a mapping from flag name to boolean.  A flag that is absent reads as
false, matching the optional boolean fields of the TypeScript record. -/
abbrev Permission : Type := List (String × Bool)

/-- Reading a flag from a permission record: a missing key is falsy. -/
def permRead (p : Permission) (k : String) : Bool := (p.lookup k).getD false

/-- The frozen default deny record of src/lib/orm/index.ts. -/
def defaultPermission : Permission := [("ban_post", true), ("ban_visit", true)]

/-- IUser of src/lib/orm/index.ts: the minimal user projection.
regTime is unix seconds. -/
structure IUser where
  id : Nat
  username : String
  nickname : String
  groupID : Nat
  img : String
  regTime : Int
  sign : String
  deriving DecidableEq, Repr

/-- One row of the access token table as byToken reads it.
expiredAt is a timestamp compared strictly against the current time. -/
structure TokenRow where
  accessToken : String
  userID : Nat
  clientID : String
  expiredAt : Int
  deriving DecidableEq, Repr

/-- One row of the chii_usergroup table.  The perm field holds the
php serialized permission blob; none models an absent or empty blob,
some entries models the parsed key to string-value pairs of a
nonempty blob. -/
structure UsergroupRow where
  perm : Option (List (String × String))
  deriving DecidableEq, Repr

/-- The external world as the auth module observes it: the clock
(DateTime.now().toUnixInteger()) and the database tables. -/
structure Env where
  now : Int
  tokens : List TokenRow
  userStore : Nat → Option IUser
  usergroupStore : Nat → Option UsergroupRow

/-- The three module level caches of src/lib/auth/index.ts:
tokenAuthCache, userCache and permissionCache. -/
structure State where
  tokenAuthCache : String → Option IUser
  userCache : Nat → Option IUser
  permissionCache : Nat → Option Permission

/-- The state of a fresh process: all caches empty. -/
def State.empty : State := ⟨fun _ => none, fun _ => none, fun _ => none⟩

/-- The errors the subsystem can throw: HeaderInvalidError,
TokenNotValidError, a plain Error for broken invariants, and
UnexpectedNotFoundError from fetchUserX. -/
inductive AuthError where
  | headerInvalid
  | tokenInvalid
  | internalError
  | unexpectedNotFound
  deriving DecidableEq, Repr

/-- fetchPermission of src/lib/orm/index.ts.  The boolean component
records whether the missing-group warning was logged; the function
never fails.  A stored value is true exactly when it is the literal
string 1. -/
def fetchPermission (env : Env) (userGroup : Nat) : Permission × Bool :=
  match env.usergroupStore userGroup with
  | none => (defaultPermission, true)
  | some row =>
    match row.perm with
    | none => (defaultPermission, false)
    | some entries => (entries.map (fun kv => (kv.1, kv.2 == "1")), false)

/-- fetchUser of src/lib/orm/index.ts: throws on a zero user id,
otherwise returns the row or none. -/
def fetchUser (env : Env) (userID : Nat) : Except AuthError (Option IUser) :=
  if userID = 0 then .error .internalError
  else .ok (env.userStore userID)

/-- fetchUserX of src/lib/orm/index.ts: like fetchUser but a missing
row becomes UnexpectedNotFoundError. -/
def fetchUserX (env : Env) (id : Nat) : Except AuthError IUser :=
  match fetchUser env id with
  | .error e => .error e
  | .ok none => .error .unexpectedNotFound
  | .ok (some u) => .ok u

/-- getPermission of src/lib/auth/index.ts: a falsy group id short
circuits to the frozen empty record; otherwise the permission cache is
consulted and on a miss the store value is fetched and cached. -/
def getPermission (env : Env) (st : State) (userGroup : Nat) : Permission × State :=
  if userGroup = 0 then ([], st)
  else
    match st.permissionCache userGroup with
    | some cached => (cached, st)
    | none =>
      let p := (fetchPermission env userGroup).1
      (p, { st with
              permissionCache := fun g => if g = userGroup then some p else st.permissionCache g })

/-- IAuth of src/lib/auth/index.ts. -/
structure IAuth where
  userID : Nat
  login : Bool
  allowNsfw : Bool
  permission : Permission
  regTime : Int
  groupID : Nat
  deriving DecidableEq, Repr

/-- emptyAuth of src/lib/auth/index.ts: the anonymous context. -/
def emptyAuth : IAuth :=
  { userID := 0, login := false, permission := [], allowNsfw := false, regTime := 0, groupID := 0 }

/-- The fixed deny list of restricted user ids. -/
def nsfwRestrictedUIDs : List Nat := [873244]

/-- userToAuth of src/lib/auth/index.ts: builds the logged-in context,
with the four-gate nsfw decision and the permission lookup. -/
def userToAuth (env : Env) (st : State) (user : IUser) : IAuth × State :=
  let pr := getPermission env st user.groupID
  ({ userID := user.id
     login := true
     permission := pr.1
     allowNsfw :=
       !(nsfwRestrictedUIDs.contains user.id)
         && !(permRead pr.1 "ban_visit")
         && !(permRead pr.1 "user_ban")
         && decide (env.now - user.regTime ≥ (60 * 60 * 24 * 90 : Int))
     regTime := user.regTime
     groupID := user.groupID }, pr.2)

/-- Writing the token auth cache (tokenAuthCache.set). -/
def setTokenCache (st : State) (k : String) (u : IUser) : State :=
  { st with tokenAuthCache := fun s => if s = k then some u else st.tokenAuthCache s }

/-- Writing the user cache (userCache.set). -/
def setUserCache (st : State) (k : Nat) (u : IUser) : State :=
  { st with userCache := fun i => if i = k then some u else st.userCache i }

/-- The token query of byToken: first row with exact binary-collation
equality on the access token and a strictly later expiry. -/
def findToken (env : Env) (accessToken : String) : Option TokenRow :=
  env.tokens.find? (fun r => r.accessToken == accessToken && env.now < r.expiredAt)

/-- byToken of src/lib/auth/index.ts: cache first, then the store with
the expiry filter; a row with a zero user id is a broken invariant. -/
def byToken (env : Env) (st : State) (accessToken : String) :
    Except AuthError (IAuth × State) :=
  match st.tokenAuthCache accessToken with
  | some cached => .ok (userToAuth env st cached)
  | none =>
    match findToken env accessToken with
    | none => .error .tokenInvalid
    | some token =>
      if token.userID = 0 then .error .internalError
      else
        match fetchUserX env token.userID with
        | .error e => .error e
        | .ok u => .ok (userToAuth env (setTokenCache st accessToken u) u)

/-- byUserID of src/lib/auth/index.ts. -/
def byUserID (env : Env) (st : State) (userID : Nat) : Except AuthError (IAuth × State) :=
  match st.userCache userID with
  | some cached => .ok (userToAuth env st cached)
  | none =>
    match fetchUserX env userID with
    | .error e => .error e
    | .ok u => .ok (userToAuth env (setUserCache st userID u) u)

/-- The raw Authorization header value: absent, a single string, or a
list of values. -/
inductive HeaderValue where
  | undef
  | str (s : String)
  | arr (l : List String)

/-- The literal Bearer prefix of src/lib/auth/index.ts. -/
def tokenPrefixStr : String := "Bearer "

/-- key.startsWith(tokenPrefix), modelled on the character sequence. -/
def strStartsWith (s p : String) : Bool := List.isPrefixOf p.data s.data

/-- key.slice(n), modelled on the character sequence. -/
def strDrop (s : String) (n : Nat) : String := String.mk (s.data.drop n)

/-- byHeader of src/lib/auth/index.ts.  A falsy header (absent or the
empty string) is anonymous; an array, a missing Bearer prefix or an
empty token are invalid; otherwise the token is resolved. -/
def byHeader (env : Env) (st : State) (key : HeaderValue) :
    Except AuthError (IAuth × State) :=
  match key with
  | .undef => .ok (emptyAuth, st)
  | .arr _ => .error .headerInvalid
  | .str s =>
    if s = "" then .ok (emptyAuth, st)
    else if !(strStartsWith s tokenPrefixStr) then .error .headerInvalid
    else
      if strDrop s tokenPrefixStr.length = "" then .error .headerInvalid
      else byToken env st (strDrop s tokenPrefixStr.length)

/-- True when the call returned a context rather than throwing. -/
def resultOk (r : Except AuthError (IAuth × State)) : Bool :=
  match r with
  | .ok _ => true
  | .error _ => false

/-- The returned context of a successful call. -/
def okAuth (r : Except AuthError (IAuth × State)) : Option IAuth :=
  match r with
  | .ok (a, _) => some a
  | .error _ => none

/-- The cache state after a call; a failed call keeps the old state. -/
def afterState (r : Except AuthError (IAuth × State)) (fallback : State) : State :=
  match r with
  | .ok (_, st) => st
  | .error _ => fallback

/-- The time-independent fields of a context: userID, login,
permission, regTime, groupID (everything except allowNsfw). -/
def authFields (a : IAuth) : Nat × Bool × Permission × Int × Nat :=
  (a.userID, a.login, a.permission, a.regTime, a.groupID)


/-! ### Helper lemmas -/

theorem userToAuth_userID (env : Env) (st : State) (user : IUser) :
    (userToAuth env st user).1.userID = user.id := rfl

theorem userToAuth_login (env : Env) (st : State) (user : IUser) :
    (userToAuth env st user).1.login = true := rfl

theorem userToAuth_permission (env : Env) (st : State) (user : IUser) :
    (userToAuth env st user).1.permission = (getPermission env st user.groupID).1 := rfl

theorem userToAuth_regTime (env : Env) (st : State) (user : IUser) :
    (userToAuth env st user).1.regTime = user.regTime := rfl

theorem userToAuth_groupID (env : Env) (st : State) (user : IUser) :
    (userToAuth env st user).1.groupID = user.groupID := rfl

theorem userToAuth_snd (env : Env) (st : State) (user : IUser) :
    (userToAuth env st user).2 = (getPermission env st user.groupID).2 := rfl

theorem userToAuth_allowNsfw (env : Env) (st : State) (user : IUser) :
    (userToAuth env st user).1.allowNsfw =
      (!(nsfwRestrictedUIDs.contains user.id)
        && !(permRead (getPermission env st user.groupID).1 "ban_visit")
        && !(permRead (getPermission env st user.groupID).1 "user_ban")
        && decide (env.now - user.regTime ≥ (60 * 60 * 24 * 90 : Int))) := rfl

theorem nsfwRestricted_contains_iff (n : Nat) :
    (nsfwRestrictedUIDs.contains n = true) ↔ n ∈ nsfwRestrictedUIDs := by
  simp [nsfwRestrictedUIDs]

/-- Looking up a key in the decoded permission list: with distinct keys
the decoded value of a stored pair is exactly the comparison with the
literal string 1. -/
theorem lookup_map_decode (l : List (String × String)) (k : String) (v : String)
    (hn : (l.map Prod.fst).Nodup) (hm : (k, v) ∈ l) :
    (l.map (fun kv => (kv.1, kv.2 == "1"))).lookup k = some (v == "1") := by
  induction l with
  | nil => cases hm
  | cons hd tl ih =>
    obtain ⟨a, b⟩ := hd
    simp only [List.map_cons] at hn ⊢
    rcases List.mem_cons.mp hm with heq | htl
    · obtain ⟨hk, hv⟩ := Prod.mk.injEq .. |>.mp heq.symm
      subst hk; subst hv
      simp
    · have hnodup := List.nodup_cons.mp hn
      have hk_mem : k ∈ tl.map Prod.fst := List.mem_map.mpr ⟨(k, v), htl, rfl⟩
      have hne : ¬(k = a) := fun h => hnodup.1 (h ▸ hk_mem)
      rw [List.lookup_cons]
      have : (k == a) = false := beq_eq_false_iff_ne.mpr hne
      rw [this]
      exact ih hnodup.2 htl

/-! ### Concrete test data -/

/-- A group whose permission blob bans nothing. -/
def rowHarmless : UsergroupRow := ⟨some [("ban_post", "0"), ("ban_visit", "0")]⟩

/-- An environment at exactly ninety days after the epoch, with a
harmless permission blob for every group. -/
def envBoundary : Env :=
  { now := 60 * 60 * 24 * 90
    tokens := []
    userStore := fun _ => none
    usergroupStore := fun _ => some rowHarmless }

/-- A user on the fixed deny list, registered at the epoch. -/
def usrDeny : IUser := ⟨873244, "d", "d", 10, "", 0, ""⟩

/-- An ordinary user registered at the epoch. -/
def usrOld : IUser := ⟨42, "u", "n", 10, "", 0, ""⟩

/-- Claim C1: for every logged-in user record, the context built by
userToAuth has allowNsfw true exactly when all four gates hold: the id
is not on the deny list, ban_visit is not set, user_ban is not set, and
now minus registeredAt is at least ninety days in seconds; the boundary
is exact and the deny list overrides everything else. -/
theorem C1_userToAuth_allowNsfw_gates (env : Env) (st : State) (user : IUser) :
    ((userToAuth env st user).1.allowNsfw = true ↔
      (user.id ∉ nsfwRestrictedUIDs ∧
       permRead (getPermission env st user.groupID).1 "ban_visit" = false ∧
       permRead (getPermission env st user.groupID).1 "user_ban" = false ∧
       env.now - user.regTime ≥ (60 * 60 * 24 * 90 : Int)))
    ∧ (user.id ∈ nsfwRestrictedUIDs → (userToAuth env st user).1.allowNsfw = false)
    ∧ (user.id ∉ nsfwRestrictedUIDs →
       permRead (getPermission env st user.groupID).1 "ban_visit" = false →
       permRead (getPermission env st user.groupID).1 "user_ban" = false →
       env.now - user.regTime = (60 * 60 * 24 * 90 : Int) →
       (userToAuth env st user).1.allowNsfw = true) := by
  have hA := userToAuth_allowNsfw env st user
  have hm := nsfwRestricted_contains_iff user.id
  refine ⟨?_, ?_, ?_⟩
  · rw [hA]
    simp only [Bool.and_eq_true, Bool.not_eq_true', decide_eq_true_eq]
    constructor
    · rintro ⟨⟨⟨hc, hv⟩, hu⟩, ht⟩
      refine ⟨fun hmem => ?_, hv, hu, ht⟩
      rw [hm.mpr hmem] at hc
      exact Bool.true_eq_false ▸ hc
    · rintro ⟨hc, hv, hu, ht⟩
      refine ⟨⟨⟨?_, hv⟩, hu⟩, ht⟩
      cases hcb : nsfwRestrictedUIDs.contains user.id with
      | false => rfl
      | true => exact absurd (hm.mp hcb) hc
  · intro hmem
    rw [hA, hm.mpr hmem]
    simp
  · intro hc hv hu ht
    rw [hA, hv, hu]
    have hcb : nsfwRestrictedUIDs.contains user.id = false := by
      cases hcb : nsfwRestrictedUIDs.contains user.id with
      | false => rfl
      | true => exact absurd (hm.mp hcb) hc
    rw [hcb, ht]
    simp

/-- Claim C1 witness: at exactly ninety days the gates pass and nsfw is
allowed; the deny-listed user is refused under the same conditions. -/
theorem C1_userToAuth_allowNsfw_gates_witness :
    (userToAuth envBoundary State.empty usrOld).1.allowNsfw = true
    ∧ (userToAuth envBoundary State.empty usrDeny).1.allowNsfw = false :=
  ⟨(C1_userToAuth_allowNsfw_gates envBoundary State.empty usrOld).2.2
      (by decide) (by decide) (by decide) (by decide),
   (C1_userToAuth_allowNsfw_gates envBoundary State.empty usrDeny).2.1 (by decide)⟩

/-- Claim C5: fetchPermission returns the frozen default-deny record on
an absent group row (with the warning logged) and on an empty blob
(without the warning); the default has ban_post and ban_visit set and
every other flag false; otherwise the blob is decoded with a stored
flag true exactly when the stored string is the literal 1. -/
theorem C5_fetchPermission_spec :
    (∀ env g, env.usergroupStore g = none →
       fetchPermission env g = (defaultPermission, true))
    ∧ (∀ env g row, env.usergroupStore g = some row → row.perm = none →
       fetchPermission env g = (defaultPermission, false))
    ∧ (∀ env g row entries, env.usergroupStore g = some row → row.perm = some entries →
       fetchPermission env g = (entries.map (fun kv => (kv.1, kv.2 == "1")), false))
    ∧ (permRead defaultPermission "ban_post" = true
       ∧ permRead defaultPermission "ban_visit" = true
       ∧ ∀ k, k ≠ "ban_post" → k ≠ "ban_visit" → permRead defaultPermission k = false)
    ∧ (∀ env g row entries k v, env.usergroupStore g = some row → row.perm = some entries →
       (entries.map Prod.fst).Nodup → (k, v) ∈ entries →
       (permRead (fetchPermission env g).1 k = true ↔ v = "1")) := by
  refine ⟨?_, ?_, ?_, ⟨by decide, by decide, ?_⟩, ?_⟩
  · intro env g h
    unfold fetchPermission
    rw [h]
  · intro env g row h hp
    unfold fetchPermission
    rw [h]
    change (match row.perm with
      | none => (defaultPermission, false)
      | some entries => (entries.map (fun kv : String × String => (kv.1, kv.2 == "1")), false)) = _
    rw [hp]
  · intro env g row entries h hp
    unfold fetchPermission
    rw [h]
    change (match row.perm with
      | none => (defaultPermission, false)
      | some entries => (entries.map (fun kv : String × String => (kv.1, kv.2 == "1")), false)) = _
    rw [hp]
  · intro k h1 h2
    unfold permRead defaultPermission
    rw [List.lookup_cons]
    rw [show (k == "ban_post") = false from beq_eq_false_iff_ne.mpr h1]
    rw [List.lookup_cons]
    rw [show (k == "ban_visit") = false from beq_eq_false_iff_ne.mpr h2]
    rfl
  · intro env g row entries k v hs hp hn hm
    have h3 : fetchPermission env g = (entries.map (fun kv => (kv.1, kv.2 == "1")), false) := by
      unfold fetchPermission
      rw [hs]
      change (match row.perm with
        | none => (defaultPermission, false)
        | some es => (es.map (fun kv : String × String => (kv.1, kv.2 == "1")), false)) = _
      rw [hp]
    rw [h3]
    unfold permRead
    rw [lookup_map_decode entries k v hn hm]
    simp

/-- A concrete group table: group 1 has a blob, group 2 an empty blob,
other groups have no row. -/
def envPerm : Env :=
  { now := 0
    tokens := []
    userStore := fun _ => none
    usergroupStore := fun g =>
      if g = 1 then some ⟨some [("ban_post", "0"), ("user_ban", "1")]⟩
      else if g = 2 then some ⟨none⟩
      else none }

/-- Claim C5 witness: the three branches of fetchPermission and the
decode rule, evaluated on the concrete group table. -/
theorem C5_fetchPermission_spec_witness :
    fetchPermission envPerm 3 = (defaultPermission, true)
    ∧ fetchPermission envPerm 2 = (defaultPermission, false)
    ∧ fetchPermission envPerm 1 = ([("ban_post", false), ("user_ban", true)], false)
    ∧ permRead defaultPermission "subject_edit" = false
    ∧ (permRead (fetchPermission envPerm 1).1 "user_ban" = true ↔ "1" = "1") :=
  ⟨C5_fetchPermission_spec.1 envPerm 3 rfl,
   C5_fetchPermission_spec.2.1 envPerm 2 ⟨none⟩ rfl rfl,
   (C5_fetchPermission_spec.2.2.1 envPerm 1 ⟨some [("ban_post", "0"), ("user_ban", "1")]⟩
      [("ban_post", "0"), ("user_ban", "1")] rfl rfl).trans (by decide),
   C5_fetchPermission_spec.2.2.2.1.2.2 "subject_edit" (by decide) (by decide),
   C5_fetchPermission_spec.2.2.2.2 envPerm 1 ⟨some [("ban_post", "0"), ("user_ban", "1")]⟩
      [("ban_post", "0"), ("user_ban", "1")] "user_ban" "1" rfl rfl (by decide) (by decide)⟩

/-- Claim C7: an absent Authorization header resolves to exactly the
canonical anonymous context, with no error and no state change. -/
theorem C7_byHeader_absent_emptyAuth (env : Env) (st : State) :
    byHeader env st HeaderValue.undef = .ok (emptyAuth, st)
    ∧ emptyAuth.userID = 0 ∧ emptyAuth.login = false ∧ emptyAuth.allowNsfw = false
    ∧ emptyAuth.permission = [] ∧ emptyAuth.regTime = 0 ∧ emptyAuth.groupID = 0 :=
  ⟨rfl, rfl, rfl, rfl, rfl, rfl, rfl⟩

/-- Equal ok results of the resolver have equal contexts. -/
theorem okInv {p : IAuth × State} {a : IAuth} {st2 : State}
    (h : (Except.ok p : Except AuthError (IAuth × State)) = .ok (a, st2)) : a = p.1 := by
  injection h with h1
  rw [h1]

/-- Every context returned by byToken is a logged-in context. -/
theorem byToken_ok_login (env : Env) (st : State) (t : String) (a : IAuth) (st2 : State)
    (h : byToken env st t = .ok (a, st2)) : a.login = true := by
  unfold byToken at h
  split at h
  · rw [okInv h, userToAuth_login]
  · split at h
    · exact Except.noConfusion h
    · split at h
      · exact Except.noConfusion h
      · split at h
        · exact Except.noConfusion h
        · rw [okInv h, userToAuth_login]

/-- Every context returned by byUserID is a logged-in context. -/
theorem byUserID_ok_login (env : Env) (st : State) (uid : Nat) (a : IAuth) (st2 : State)
    (h : byUserID env st uid = .ok (a, st2)) : a.login = true := by
  unfold byUserID at h
  split at h
  · rw [okInv h, userToAuth_login]
  · split at h
    · exact Except.noConfusion h
    · rw [okInv h, userToAuth_login]

/-- Every context returned by byHeader is the anonymous context or a
logged-in context. -/
theorem byHeader_ok_cases (env : Env) (st : State) (key : HeaderValue) (a : IAuth) (st2 : State)
    (h : byHeader env st key = .ok (a, st2)) : a = emptyAuth ∨ a.login = true := by
  unfold byHeader at h
  split at h
  · exact Or.inl (okInv h)
  · exact Except.noConfusion h
  · split at h
    · exact Or.inl (okInv h)
    · split at h
      · exact Except.noConfusion h
      · split at h
        · exact Except.noConfusion h
        · exact Or.inr (byToken_ok_login _ _ _ _ _ h)

/-- The anonymity invariant on a context: a context that is not logged
in is all zero, has no permissions, and never allows nsfw. -/
def anonInv (a : IAuth) : Prop :=
  a.login = false →
    (a.userID = 0 ∧ a.permission = [] ∧ a.regTime = 0 ∧ a.groupID = 0 ∧ a.allowNsfw = false)

/-- Claim C6: every context produced by byHeader, byToken, byUserID or
emptyAuth satisfies the invariant that login false forces user id 0,
empty permission, registration time 0 and group 0, and that allowNsfw
is never true without login. -/
theorem C6_anonymous_invariant :
    anonInv emptyAuth
    ∧ (∀ env st key a st2, byHeader env st key = .ok (a, st2) → anonInv a)
    ∧ (∀ env st t a st2, byToken env st t = .ok (a, st2) → anonInv a)
    ∧ (∀ env st uid a st2, byUserID env st uid = .ok (a, st2) → anonInv a) := by
  have hEmpty : anonInv emptyAuth := fun _ => ⟨rfl, rfl, rfl, rfl, rfl⟩
  refine ⟨hEmpty, ?_, ?_, ?_⟩
  · intro env st key a st2 h
    rcases byHeader_ok_cases env st key a st2 h with he | hl
    · rw [he]; exact hEmpty
    · intro hf
      rw [hl] at hf
      exact Bool.noConfusion hf
  · intro env st t a st2 h hf
    rw [byToken_ok_login env st t a st2 h] at hf
    exact Bool.noConfusion hf
  · intro env st uid a st2 h hf
    rw [byUserID_ok_login env st uid a st2 h] at hf
    exact Bool.noConfusion hf

/-- Claim C6 witness: the invariant unfolded on the anonymous context,
with the login hypothesis discharged. -/
theorem C6_anonymous_invariant_witness :
    emptyAuth.userID = 0 ∧ emptyAuth.permission = [] ∧ emptyAuth.regTime = 0
    ∧ emptyAuth.groupID = 0 ∧ emptyAuth.allowNsfw = false :=
  C6_anonymous_invariant.1 rfl

/-- A falsy group id short circuits getPermission. -/
theorem getPermission_zero (env : Env) (st : State) : getPermission env st 0 = ([], st) := by
  unfold getPermission
  simp

/-- A user with group id zero, registered at the epoch. -/
def usrZero : IUser := ⟨9, "z", "z", 0, "", 0, ""⟩

/-- An environment with no permission rows at all, ninety days after
the epoch: every real group would fall back to the default deny. -/
def envDeny : Env :=
  { now := 60 * 60 * 24 * 90
    tokens := []
    userStore := fun _ => none
    usergroupStore := fun _ => none }

/-- Claim C10: a logged-in user with a falsy (zero) group id gets the
frozen empty permission mapping from getPermission without the store or
the cache being consulted or written, so the default-deny fallback for
groups without a permission row is bypassed, and such a user that is
old enough and not deny-listed has allowNsfw true. -/
theorem C10_getPermission_zero_group_bypass :
    (∀ env st, getPermission env st 0 = ([], st))
    ∧ (∀ env st user, user.groupID = 0 →
       (userToAuth env st user).1.permission = []
       ∧ (userToAuth env st user).2 = st
       ∧ (user.id ∉ nsfwRestrictedUIDs →
          env.now - user.regTime ≥ (60 * 60 * 24 * 90 : Int) →
          (userToAuth env st user).1.allowNsfw = true)) := by
  refine ⟨fun env st => getPermission_zero env st, ?_⟩
  intro env st user hg
  refine ⟨?_, ?_, ?_⟩
  · rw [userToAuth_permission, hg, getPermission_zero]
  · rw [userToAuth_snd, hg, getPermission_zero]
  · intro h1 h2
    have hcb : nsfwRestrictedUIDs.contains user.id = false := by
      cases hcb : nsfwRestrictedUIDs.contains user.id with
      | false => rfl
      | true => exact absurd ((nsfwRestricted_contains_iff user.id).mp hcb) h1
    rw [userToAuth_allowNsfw, hg, getPermission_zero]
    rw [hcb, decide_eq_true h2]
    rfl

/-- Claim C10 witness: the zero-group bypass evaluated in an
environment where every real group would get the default deny. -/
theorem C10_getPermission_zero_group_bypass_witness :
    getPermission envDeny State.empty 0 = ([], State.empty)
    ∧ (userToAuth envDeny State.empty usrZero).1.permission = []
    ∧ (userToAuth envDeny State.empty usrZero).1.allowNsfw = true
    ∧ (fetchPermission envDeny 0).1 = defaultPermission :=
  ⟨C10_getPermission_zero_group_bypass.1 envDeny State.empty,
   (C10_getPermission_zero_group_bypass.2 envDeny State.empty usrZero rfl).1,
   (C10_getPermission_zero_group_bypass.2 envDeny State.empty usrZero rfl).2.2
     (by decide) (by decide),
   rfl⟩

/-- An environment with no tokens, no users and no permission rows. -/
def envNone : Env :=
  { now := 0, tokens := [], userStore := fun _ => none, usergroupStore := fun _ => none }

/-- Claim C3 counterexample: the empty string is a string without the
Bearer prefix, yet byHeader treats it as a falsy (absent) header and
returns the anonymous context instead of failing with HeaderInvalid. -/
theorem C3_counterexample_empty_string :
    strStartsWith "" tokenPrefixStr = false
    ∧ byHeader envNone State.empty (HeaderValue.str "") = .ok (emptyAuth, State.empty) :=
  ⟨by decide, rfl⟩

/-- Claim C3 (amended): every array value, every nonempty string
without the Bearer prefix, and every Bearer string whose token is empty
after stripping the prefix is rejected with HeaderInvalid; only the
empty string escapes, being treated as an absent header. -/
theorem C3_byHeader_malformed_rejected :
    (∀ env st l, byHeader env st (HeaderValue.arr l) = .error .headerInvalid)
    ∧ (∀ env st s, s ≠ "" → strStartsWith s tokenPrefixStr = false →
       byHeader env st (HeaderValue.str s) = .error .headerInvalid)
    ∧ (∀ env st s, strStartsWith s tokenPrefixStr = true →
       strDrop s tokenPrefixStr.length = "" →
       byHeader env st (HeaderValue.str s) = .error .headerInvalid) := by
  refine ⟨fun env st l => rfl, ?_, ?_⟩
  · intro env st s h1 h2
    simp only [byHeader]
    rw [if_neg h1]
    simp [h2]
  · intro env st s h1 h2
    have hs : s ≠ "" := by
      intro he
      subst he
      rw [show strStartsWith "" tokenPrefixStr = false from by decide] at h1
      exact Bool.noConfusion h1
    simp only [byHeader]
    rw [if_neg hs]
    simp [h1, h2]

/-- Claim C3 witness: the scenarios of the spec, a two-element array, a
Basic header and a bare Bearer prefix, all rejected. -/
theorem C3_byHeader_malformed_rejected_witness :
    byHeader envNone State.empty (HeaderValue.arr ["Bearer a", "Bearer b"]) = .error .headerInvalid
    ∧ byHeader envNone State.empty (HeaderValue.str "Basic xyz") = .error .headerInvalid
    ∧ byHeader envNone State.empty (HeaderValue.str "Bearer ") = .error .headerInvalid :=
  ⟨C3_byHeader_malformed_rejected.1 envNone State.empty ["Bearer a", "Bearer b"],
   C3_byHeader_malformed_rejected.2.1 envNone State.empty "Basic xyz" (by decide) (by decide),
   C3_byHeader_malformed_rejected.2.2 envNone State.empty "Bearer " (by decide) (by decide)⟩

/-- Prepending the Bearer prefix always satisfies the prefix test. -/
theorem strStartsWith_append (t : String) :
    strStartsWith (tokenPrefixStr ++ t) tokenPrefixStr = true := by
  unfold strStartsWith
  rw [String.data_append]
  exact List.isPrefixOf_iff_prefix.mpr (List.prefix_append _ _)

/-- Stripping the Bearer prefix from a prefixed string recovers the
token. -/
theorem strDrop_append (t : String) :
    strDrop (tokenPrefixStr ++ t) tokenPrefixStr.length = t := by
  unfold strDrop
  rw [String.data_append]
  have h : tokenPrefixStr.length = tokenPrefixStr.data.length := rfl
  rw [h, List.drop_left]

/-- A string carrying the Bearer prefix is never empty. -/
theorem bearer_append_ne_empty (t : String) : tokenPrefixStr ++ t ≠ "" := by
  intro h
  have hlen := congrArg String.length h
  rw [String.length_append] at hlen
  have h7 : tokenPrefixStr.length = 7 := rfl
  rw [h7] at hlen
  simp at hlen

/-- For a nonempty token, the header Bearer-plus-token resolves exactly
as byToken on the token. -/
theorem byHeader_bearer (env : Env) (st : State) (t : String) (h : t ≠ "") :
    byHeader env st (HeaderValue.str (tokenPrefixStr ++ t)) = byToken env st t := by
  simp only [byHeader]
  rw [if_neg (bearer_append_ne_empty t)]
  rw [strStartsWith_append t, strDrop_append t]
  simp [h]

/-- The cache-miss success path of byToken: a fresh cache, a live row
with a nonzero user id and an existing user record resolve to the
logged-in context, writing the token cache. -/
theorem byToken_resolves (env : Env) (st : State) (t : String) (tok : TokenRow) (u : IUser)
    (hc : st.tokenAuthCache t = none)
    (hf : findToken env t = some tok)
    (h0 : tok.userID ≠ 0)
    (hu : fetchUserX env tok.userID = .ok u) :
    byToken env st t = .ok (userToAuth env (setTokenCache st t u) u) := by
  unfold byToken
  rw [hc]
  change (match findToken env t with
    | none => Except.error AuthError.tokenInvalid
    | some token =>
      if token.userID = 0 then Except.error AuthError.internalError
      else
        match fetchUserX env token.userID with
        | .error e => Except.error e
        | .ok u2 => Except.ok (userToAuth env (setTokenCache st t u2) u2)) = _
  rw [hf]
  change (if tok.userID = 0 then Except.error AuthError.internalError
    else
      match fetchUserX env tok.userID with
      | .error e => Except.error e
      | .ok u2 => Except.ok (userToAuth env (setTokenCache st t u2) u2)) = _
  rw [if_neg h0, hu]

/-- A user holding an access token in the concrete environments. -/
def usr7 : IUser := ⟨7, "u7", "n7", 10, "", 0, ""⟩

/-- A token row whose access token is the empty string. -/
def rowEmptyTok : TokenRow := ⟨"", 7, "app", 100⟩

/-- A token store holding a live row for the empty-string token. -/
def envEmptyTok : Env :=
  { now := 0
    tokens := [rowEmptyTok]
    userStore := fun i => if i = 7 then some usr7 else none
    usergroupStore := fun _ => some rowHarmless }

/-- Claim C2 counterexample: the token store holds a live row for the
empty-string token mapping to an existing user, yet resolving the
header Bearer-plus-token fails with HeaderInvalid instead of returning
that user. -/
theorem C2_counterexample_empty_token :
    findToken envEmptyTok "" = some rowEmptyTok
    ∧ rowEmptyTok.userID = 7
    ∧ envEmptyTok.userStore 7 = some usr7
    ∧ usr7.id = 7
    ∧ envEmptyTok.now < rowEmptyTok.expiredAt
    ∧ byHeader envEmptyTok State.empty (HeaderValue.str (tokenPrefixStr ++ ""))
        = .error .headerInvalid :=
  ⟨rfl, rfl, rfl, rfl, by decide, rfl⟩

/-- Claim C2 (amended): for a nonempty token with a fresh token cache,
a live store row carrying a nonzero user id that resolves to an
existing user record, byHeader on Bearer-plus-token returns a context
with that user id and login true. -/
theorem C2_byHeader_valid_token_resolves (env : Env) (st : State) (t : String) (u : Nat)
    (usr : IUser) (tok : TokenRow)
    (hne : t ≠ "")
    (hc : st.tokenAuthCache t = none)
    (hf : findToken env t = some tok)
    (hu : tok.userID = u) (hu0 : u ≠ 0)
    (hus : env.userStore u = some usr) (hid : usr.id = u) :
    Option.map (fun a => (a.userID, a.login))
      (okAuth (byHeader env st (HeaderValue.str (tokenPrefixStr ++ t)))) = some (u, true) := by
  have hux : fetchUserX env tok.userID = .ok usr := by
    rw [hu]
    unfold fetchUserX fetchUser
    rw [if_neg hu0, hus]
  rw [byHeader_bearer env st t hne]
  rw [byToken_resolves env st t tok usr hc hf (by rw [hu]; exact hu0) hux]
  show some ((userToAuth env (setTokenCache st t usr) usr).1.userID,
    (userToAuth env (setTokenCache st t usr) usr).1.login) = some (u, true)
  rw [userToAuth_userID, userToAuth_login, hid]

/-- A live token row for user 42. -/
def tokRow42 : TokenRow := ⟨"tok42", 42, "app", 100⟩

/-- An ordinary user holding token tok42. -/
def usr42 : IUser := ⟨42, "u42", "n", 10, "", 0, ""⟩

/-- A store with one live token mapping to user 42. -/
def envTok : Env :=
  { now := 0
    tokens := [tokRow42]
    userStore := fun i => if i = 42 then some usr42 else none
    usergroupStore := fun _ => some rowHarmless }

/-- Claim C2 witness: the amended statement evaluated on the concrete
one-token store. -/
theorem C2_byHeader_valid_token_resolves_witness :
    Option.map (fun a => (a.userID, a.login))
      (okAuth (byHeader envTok State.empty (HeaderValue.str (tokenPrefixStr ++ "tok42"))))
      = some (42, true) :=
  C2_byHeader_valid_token_resolves envTok State.empty "tok42" 42 usr42 tokRow42
    (by decide) rfl rfl rfl (by decide) rfl rfl

/-- A state whose token cache already holds an entry for abc123. -/
def stCached : State :=
  { tokenAuthCache := fun k => if k = "abc123" then some usr42 else none
    userCache := fun _ => none
    permissionCache := fun _ => none }

/-- An environment whose token store is empty. -/
def envNoTok : Env :=
  { now := 1000
    tokens := []
    userStore := fun _ => none
    usergroupStore := fun _ => some rowHarmless }

/-- Claim C4 counterexample: the row for abc123 is missing from the
token store, yet byToken serves the request from the token cache and
returns a context instead of failing with TokenInvalid. -/
theorem C4_counterexample_cached_token :
    envNoTok.tokens = []
    ∧ resultOk (byToken envNoTok stCached "abc123") = true :=
  ⟨rfl, rfl⟩

/-- Claim C4 (amended): with no cache entry for the token, byToken
fails with TokenInvalid whenever every store row carrying the token has
already expired, in particular when the row is missing entirely. -/
theorem C4_byToken_missing_or_expired (env : Env) (st : State) (t : String)
    (hc : st.tokenAuthCache t = none)
    (h : ∀ r ∈ env.tokens, r.accessToken = t → r.expiredAt ≤ env.now) :
    byToken env st t = .error .tokenInvalid := by
  have hf : findToken env t = none := by
    unfold findToken
    rw [List.find?_eq_none]
    intro r hr hcontra
    rw [Bool.and_eq_true] at hcontra
    obtain ⟨h1, h2⟩ := hcontra
    have ha : r.accessToken = t := beq_iff_eq.mp h1
    have hle := h r hr ha
    rw [decide_eq_true_eq] at h2
    omega
  unfold byToken
  rw [hc]
  change (match findToken env t with
    | none => Except.error AuthError.tokenInvalid
    | some token =>
      if token.userID = 0 then Except.error AuthError.internalError
      else
        match fetchUserX env token.userID with
        | .error e => Except.error e
        | .ok u2 => Except.ok (userToAuth env (setTokenCache st t u2) u2)) = _
  rw [hf]

/-- A token row for abc123 that expired one second before now. -/
def tokExpired : TokenRow := ⟨"abc123", 42, "app", 999⟩

/-- A store holding only the expired abc123 row, at time 1000. -/
def envExpired : Env :=
  { now := 1000
    tokens := [tokExpired]
    userStore := fun i => if i = 42 then some usr42 else none
    usergroupStore := fun _ => some rowHarmless }

/-- Claim C4 witness: the token abc123 expired one second ago resolves
to TokenInvalid on a fresh cache. -/
theorem C4_byToken_missing_or_expired_witness :
    byToken envExpired State.empty "abc123" = .error .tokenInvalid :=
  C4_byToken_missing_or_expired envExpired State.empty "abc123" rfl (by decide)

/-- A user in group 5, a group that has no permission row. -/
def usrG5 : IUser := ⟨1, "u", "n", 5, "", 0, ""⟩

/-- Claim C8 counterexample: a logged-in user whose group has no
permission row gets the default deny record, not the empty mapping. -/
theorem C8_counterexample_missing_row :
    envNone.usergroupStore usrG5.groupID = none
    ∧ (userToAuth envNone State.empty usrG5).1.login = true
    ∧ (userToAuth envNone State.empty usrG5).1.permission = defaultPermission
    ∧ defaultPermission ≠ ([] : Permission) :=
  ⟨rfl, rfl, rfl, by decide⟩

/-- Claim C8 (amended): the permission field is the empty mapping when
anonymous or when the group id is zero; a logged-in user whose nonzero
group has no permission row (and no stale cache entry) instead gets the
frozen default deny record. -/
theorem C8_permission_empty_amended :
    emptyAuth.permission = []
    ∧ (∀ env st u, u.groupID = 0 → (userToAuth env st u).1.permission = [])
    ∧ (∀ env st u, u.groupID ≠ 0 → st.permissionCache u.groupID = none →
       env.usergroupStore u.groupID = none →
       (userToAuth env st u).1.permission = defaultPermission) := by
  refine ⟨rfl, ?_, ?_⟩
  · intro env st u hg
    rw [userToAuth_permission, hg, getPermission_zero]
  · intro env st u hg hcache hstore
    rw [userToAuth_permission]
    unfold getPermission
    rw [if_neg hg, hcache]
    change (fetchPermission env u.groupID).1 = defaultPermission
    unfold fetchPermission
    rw [hstore]

/-- Claim C8 witness: the three cases of the amended statement on the
empty environment. -/
theorem C8_permission_empty_amended_witness :
    emptyAuth.permission = []
    ∧ (userToAuth envNone State.empty usrZero).1.permission = []
    ∧ (userToAuth envNone State.empty usrG5).1.permission = defaultPermission :=
  ⟨C8_permission_empty_amended.1,
   C8_permission_empty_amended.2.1 envNone State.empty usrZero rfl,
   C8_permission_empty_amended.2.2 envNone State.empty usrG5 (by decide) rfl rfl⟩

/-- byToken on a cache miss with no matching live row. -/
theorem byToken_miss_none (env : Env) (st : State) (t : String)
    (hc : st.tokenAuthCache t = none) (hf : findToken env t = none) :
    byToken env st t = .error .tokenInvalid := by
  unfold byToken
  rw [hc]
  change (match findToken env t with
    | none => Except.error AuthError.tokenInvalid
    | some token =>
      if token.userID = 0 then Except.error AuthError.internalError
      else
        match fetchUserX env token.userID with
        | .error e => Except.error e
        | .ok u2 => Except.ok (userToAuth env (setTokenCache st t u2) u2)) = _
  rw [hf]

/-- byToken on a cache miss finding a row without a user id. -/
theorem byToken_miss_zero (env : Env) (st : State) (t : String) (tok : TokenRow)
    (hc : st.tokenAuthCache t = none) (hf : findToken env t = some tok)
    (h0 : tok.userID = 0) :
    byToken env st t = .error .internalError := by
  unfold byToken
  rw [hc]
  change (match findToken env t with
    | none => Except.error AuthError.tokenInvalid
    | some token =>
      if token.userID = 0 then Except.error AuthError.internalError
      else
        match fetchUserX env token.userID with
        | .error e => Except.error e
        | .ok u2 => Except.ok (userToAuth env (setTokenCache st t u2) u2)) = _
  rw [hf]
  change (if tok.userID = 0 then Except.error AuthError.internalError
    else
      match fetchUserX env tok.userID with
      | .error e => Except.error e
      | .ok u2 => Except.ok (userToAuth env (setTokenCache st t u2) u2)) = _
  rw [if_pos h0]

/-- byToken on a cache miss when the user lookup fails. -/
theorem byToken_miss_err (env : Env) (st : State) (t : String) (tok : TokenRow) (e : AuthError)
    (hc : st.tokenAuthCache t = none) (hf : findToken env t = some tok)
    (h0 : tok.userID ≠ 0) (hu : fetchUserX env tok.userID = .error e) :
    byToken env st t = .error e := by
  unfold byToken
  rw [hc]
  change (match findToken env t with
    | none => Except.error AuthError.tokenInvalid
    | some token =>
      if token.userID = 0 then Except.error AuthError.internalError
      else
        match fetchUserX env token.userID with
        | .error e2 => Except.error e2
        | .ok u2 => Except.ok (userToAuth env (setTokenCache st t u2) u2)) = _
  rw [hf]
  change (if tok.userID = 0 then Except.error AuthError.internalError
    else
      match fetchUserX env tok.userID with
      | .error e2 => Except.error e2
      | .ok u2 => Except.ok (userToAuth env (setTokenCache st t u2) u2)) = _
  rw [if_neg h0, hu]

/-- byToken on a cache hit. -/
theorem byToken_cache_hit (env : Env) (st : State) (t : String) (u : IUser)
    (h : st.tokenAuthCache t = some u) :
    byToken env st t = .ok (userToAuth env st u) := by
  unfold byToken
  rw [h]

/-- getPermission never touches the token cache. -/
theorem getPermission_tokenAuthCache (env : Env) (st : State) (g : Nat) :
    ((getPermission env st g).2).tokenAuthCache = st.tokenAuthCache := by
  unfold getPermission
  split
  · rfl
  · split
    · rfl
    · rfl

/-- Writing the token cache makes the entry visible. -/
theorem setTokenCache_hit (st : State) (t : String) (u : IUser) :
    (setTokenCache st t u).tokenAuthCache t = some u := by
  simp [setTokenCache]

/-- A second permission lookup through the state left by a first one
returns the value of the first lookup, whatever the second environment
is: the first lookup either hit the cache, leaving it unchanged, or
wrote the fetched value into it. -/
theorem getPermission_stable (env1 env2 : Env) (st : State) (g : Nat) :
    (getPermission env2 (getPermission env1 st g).2 g).1 = (getPermission env1 st g).1 := by
  by_cases hg : g = 0
  · subst hg
    rw [getPermission_zero env1 st]
    show (getPermission env2 st 0).1 = ([] : Permission)
    rw [getPermission_zero env2 st]
  · cases hcache : st.permissionCache g with
    | some p =>
      have h1 : getPermission env1 st g = (p, st) := by
        unfold getPermission
        rw [if_neg hg, hcache]
      rw [h1]
      show (getPermission env2 st g).1 = p
      unfold getPermission
      rw [if_neg hg, hcache]
    | none =>
      have h1 : getPermission env1 st g = ((fetchPermission env1 g).1,
          { st with permissionCache :=
              fun g2 => if g2 = g then some (fetchPermission env1 g).1
                        else st.permissionCache g2 }) := by
        unfold getPermission
        rw [if_neg hg, hcache]
      rw [h1]
      unfold getPermission
      rw [if_neg hg]
      have hupd : ({ st with permissionCache :=
          fun g2 => if g2 = g then some (fetchPermission env1 g).1
                    else st.permissionCache g2 } : State).permissionCache g
          = some (fetchPermission env1 g).1 := by simp
      rw [hupd]

/-- Claim C9: resolving the same token twice, where the second call
hits the cache entry written by the first, again succeeds and returns
the same userID, login, permission, regTime and groupID, regardless of
how the environment changed between the calls. -/
theorem C9_byToken_repeat_stable_fields (env1 env2 : Env) (st0 : State) (t : String)
    (h0 : st0.tokenAuthCache t = none)
    (h1 : resultOk (byToken env1 st0 t) = true) :
    resultOk (byToken env2 (afterState (byToken env1 st0 t) st0) t) = true
    ∧ Option.map authFields (okAuth (byToken env2 (afterState (byToken env1 st0 t) st0) t))
      = Option.map authFields (okAuth (byToken env1 st0 t)) := by
  cases hf : findToken env1 t with
  | none =>
    rw [byToken_miss_none env1 st0 t h0 hf] at h1
    exact Bool.noConfusion h1
  | some tok =>
    by_cases h0u : tok.userID = 0
    · rw [byToken_miss_zero env1 st0 t tok h0 hf h0u] at h1
      exact Bool.noConfusion h1
    · cases hu : fetchUserX env1 tok.userID with
      | error e =>
        rw [byToken_miss_err env1 st0 t tok e h0 hf h0u hu] at h1
        exact Bool.noConfusion h1
      | ok u =>
        rw [byToken_resolves env1 st0 t tok u h0 hf h0u hu]
        have hcached : ((userToAuth env1 (setTokenCache st0 t u) u).2).tokenAuthCache t
            = some u := by
          rw [userToAuth_snd, getPermission_tokenAuthCache]
          exact setTokenCache_hit st0 t u
        have hstate : afterState (Except.ok (userToAuth env1 (setTokenCache st0 t u) u)) st0
            = (userToAuth env1 (setTokenCache st0 t u) u).2 := rfl
        rw [hstate]
        rw [byToken_cache_hit env2 ((userToAuth env1 (setTokenCache st0 t u) u).2) t u hcached]
        refine ⟨rfl, ?_⟩
        show some (authFields (userToAuth env2 ((userToAuth env1 (setTokenCache st0 t u) u).2) u).1)
          = some (authFields (userToAuth env1 (setTokenCache st0 t u) u).1)
        have hperm : (userToAuth env2 ((userToAuth env1 (setTokenCache st0 t u) u).2) u).1.permission
            = (userToAuth env1 (setTokenCache st0 t u) u).1.permission := by
          rw [userToAuth_permission env2, userToAuth_permission env1, userToAuth_snd env1]
          exact getPermission_stable env1 env2 (setTokenCache st0 t u) u.groupID
        unfold authFields
        rw [userToAuth_userID env2, userToAuth_userID env1, userToAuth_login env2,
           userToAuth_login env1, userToAuth_regTime env2, userToAuth_regTime env1,
           userToAuth_groupID env2, userToAuth_groupID env1, hperm]

/-- The one-token store observed again, later. -/
def envTokLater : Env := { envTok with now := 50 }

/-- Claim C9 witness: two resolutions of tok42, the second through the
state written by the first with the clock advanced, agree on all
time-independent fields. -/
theorem C9_byToken_repeat_stable_fields_witness :
    State.empty.tokenAuthCache "tok42" = none
    ∧ resultOk (byToken envTok State.empty "tok42") = true
    ∧ resultOk (byToken envTokLater
        (afterState (byToken envTok State.empty "tok42") State.empty) "tok42") = true
    ∧ Option.map authFields (okAuth (byToken envTokLater
        (afterState (byToken envTok State.empty "tok42") State.empty) "tok42"))
      = Option.map authFields (okAuth (byToken envTok State.empty "tok42")) :=
  ⟨rfl, rfl,
   (C9_byToken_repeat_stable_fields envTok envTokLater State.empty "tok42" rfl rfl).1,
   (C9_byToken_repeat_stable_fields envTok envTokLater State.empty "tok42" rfl rfl).2⟩
